import Mathlib

/-!
Shallow embedding of `src/src/framing/src/flexframegen.c` (liquid-dsp
flexible frame generator).

Modelling conventions:
* C `unsigned int` / `unsigned char` values are `Nat`; every store into a
  byte masks with `&&& 0xff` exactly where the source's types truncate.
* Byte buffers are `List Nat`; complex sample buffers are `List Complex`
  (`float complex` idealised as `ℂ`, with `cos` as `Real.cos`).
* The external collaborators called by this file (CRC generator, scrambler,
  FEC encoder, block interleaver, modem, m-sequence generator and
  `repack_bytes`) are not part of `src/`; following the spec's collaborator
  contracts they are grouped into an abstract record `Collab` of functions
  that every operation takes as a parameter.
* The C code mutates a heap object; here every operation returns the updated
  `flexframegen_s` value.  `exit(1)` on an invalid configuration is modelled
  as an `Except.error ConfigurationError` result, per the spec's error model.
* `realloc` keeps the old contents up to the smaller size; the contents of a
  freshly grown region are indeterminate in C and are modelled as `0` (no
  theorem below depends on them).  `flexframegen_configure_payload_buffers`
  additionally returns how many `realloc` calls it performed, instrumenting
  the three `if` branches of the source so that "no reallocation happened"
  is expressible.
-/

/-- Modulation scheme enumeration value for BPSK.  The enumeration lives in
`liquid.h` (outside `src/`); only its identity matters here, so it is an
arbitrary fixed `Nat`. -/
def MOD_BPSK : Nat := 1

/-- Mirror of `flexframegenprops_s` (the caller-visible configuration). -/
structure flexframegenprops_s where
  rampup_len : Nat
  phasing_len : Nat
  payload_len : Nat
  mod_scheme : Nat
  mod_bps : Nat
  rampdn_len : Nat
deriving DecidableEq

/-- Mirror of the static `flexframegenprops_default` initializer. -/
def flexframegenprops_default : flexframegenprops_s :=
  { rampup_len := 16
    phasing_len := 16
    payload_len := 0
    mod_scheme := MOD_BPSK
    mod_bps := 1
    rampdn_len := 16 }

/-- Pure value computed by `flexframegen_compute_payload_len`:
`div(8*payload_len, mod_bps)` (C `div_t`) with the quotient extended by one
when the remainder is nonzero. -/
def payload_symbols (props : flexframegenprops_s) : Nat :=
  let quot := 8 * props.payload_len / props.mod_bps
  let rem := 8 * props.payload_len % props.mod_bps
  quot + (if rem = 0 then 0 else 1)

/-- Pure value computed by `flexframegen_compute_frame_len`: the running sum
over the six segments, in source order. -/
def frame_len_formula (pnsequence_len : Nat) (props : flexframegenprops_s) : Nat :=
  props.rampup_len + props.phasing_len + pnsequence_len + 256
    + payload_symbols props + props.rampdn_len

/-- Abstract record of the external collaborators used by `flexframegen.c`.
These functions (`crc32_generate_key`, `scramble_data`, `fec_encode`,
`interleaver_encode`, `modem_modulate`, `msequence_advance`, `repack_bytes`)
live elsewhere in liquid-dsp, outside `src/`; the spec treats them as
black-box contracts, so they are parameters of the embedding. -/
structure Collab where
  /-- `crc32_generate_key(bytes, len)`; the C return type `unsigned int`
  truncation to 32 bits is applied at the call site. -/
  crc32_generate_key : List Nat → Nat → Nat
  /-- `scramble_data(bytes, len)`, in place over the first `len` bytes;
  modelled as returning the transformed buffer. -/
  scramble_data : List Nat → Nat → List Nat
  /-- `fec_encode(fec, dec_msg_len, input, output)` for the Hamming(7,4)
  header code; modelled as the list of bytes it writes. -/
  fec_encode : Nat → List Nat → List Nat
  /-- `interleaver_encode(intlv, input, output)` on the 32-byte block. -/
  interleaver_encode : List Nat → List Nat
  /-- The 64 successive `msequence_advance` outputs of `msequence_create(6)`
  used at construction. -/
  msequence_bits : List Bool
  /-- `modem_modulate(mod, symbol, &sample)` for a modem created with the
  given scheme and bits-per-symbol: `(scheme, bps, symbol) → sample`. -/
  modem_modulate : Nat → Nat → Nat → Complex
  /-- `repack_bytes(input, 8, input_len, output, out_bps, out_len, &n)`:
  the symbols written into the output buffer, as a list. -/
  repack_bytes : List Nat → Nat → Nat → Nat → Nat → List Nat

/-- Mirror of `struct flexframegen_s`.  The dead `ramp_up` / `phasing` /
`ramp_dn` pointer fields (declared but never allocated or read in the
source) are omitted. -/
structure flexframegen_s where
  pn_sequence : List Complex
  mod_header_scheme : Nat
  mod_header_bps : Nat
  header : List Nat
  header_enc : List Nat
  header_sym : List Nat
  header_samples : List Complex
  mod_payload_scheme : Nat
  mod_payload_bps : Nat
  payload : List Nat
  payload_sym : List Nat
  payload_samples : List Complex
  payload_numalloc : Nat
  payload_sym_numalloc : Nat
  payload_samples_numalloc : Nat
  props : flexframegenprops_s
  pnsequence_len : Nat
  num_payload_symbols : Nat
  frame_len : Nat

/-- Typed error replacing the source's `exit(1)` on an invalid
configuration, per the spec's error model. -/
inductive ConfigurationError where
  | modDepthZero
deriving DecidableEq

/-- Overwrite the first `w.length` entries of `buf` with `w`, keeping the
tail: the effect of `memmove(buf, w, w.length)` (or of a routine writing a
prefix of `buf`). -/
def overwriteFirst {α : Type} (w : List α) (buf : List α) : List α :=
  w ++ buf.drop w.length

/-- Model of `realloc(buf, n)`: contents preserved up to `n`, any grown
region indeterminate (modelled as `d`). -/
def resizeBuf {α : Type} (d : α) (buf : List α) (n : Nat) : List α :=
  buf.take n ++ List.replicate (n - buf.length) d

/-- Mirror of `flexframegen_compute_payload_len` (state-updating form). -/
def flexframegen_compute_payload_len (fg : flexframegen_s) : flexframegen_s :=
  { fg with num_payload_symbols := payload_symbols fg.props }

/-- Mirror of `flexframegen_compute_frame_len`: recomputes the payload
length, then accumulates the six segment lengths. -/
def flexframegen_compute_frame_len (fg : flexframegen_s) : flexframegen_s :=
  let fg := flexframegen_compute_payload_len fg
  { fg with frame_len := fg.props.rampup_len + fg.props.phasing_len
      + fg.pnsequence_len + 256 + fg.num_payload_symbols + fg.props.rampdn_len }

/-- Mirror of `flexframegen_configure_payload_buffers`.  The second component
counts how many of the three `realloc` branches were taken (0 when no
reallocation was needed). -/
def flexframegen_configure_payload_buffers (fg : flexframegen_s) :
    flexframegen_s × Nat :=
  let fg := flexframegen_compute_frame_len fg
  let p :=
    if fg.payload_numalloc ≠ fg.props.payload_len then
      (resizeBuf 0 fg.payload fg.props.payload_len, fg.props.payload_len, 1)
    else (fg.payload, fg.payload_numalloc, 0)
  let s :=
    if fg.payload_sym_numalloc ≠ fg.num_payload_symbols then
      (resizeBuf 0 fg.payload_sym fg.num_payload_symbols, fg.num_payload_symbols, 1)
    else (fg.payload_sym, fg.payload_sym_numalloc, 0)
  let m :=
    if fg.payload_samples_numalloc ≠ fg.num_payload_symbols then
      (resizeBuf 0 fg.payload_samples fg.num_payload_symbols, fg.num_payload_symbols, 1)
    else (fg.payload_samples, fg.payload_samples_numalloc, 0)
  ({ fg with
      payload := p.1, payload_numalloc := p.2.1,
      payload_sym := s.1, payload_sym_numalloc := s.2.1,
      payload_samples := m.1, payload_samples_numalloc := m.2.1 },
    p.2.2 + s.2.2 + m.2.2)

/-- Mirror of `flexframegen_setprops`.  The source checks `mod_bps == 0`
first and `exit(1)`s before touching any state; here that is the `error`
branch, taken before any field update.  On success it copies the properties,
re-creates the payload modem, recomputes the payload and frame lengths and
reconfigures the payload buffers, in source order.  The `Nat` component is
the `realloc` count reported by the buffer reconfiguration. -/
def flexframegen_setprops (fg : flexframegen_s) (props : flexframegenprops_s) :
    Except ConfigurationError (flexframegen_s × Nat) :=
  if props.mod_bps = 0 then
    .error ConfigurationError.modDepthZero
  else
    let fg := { fg with props := props }
    let fg := { fg with mod_payload_scheme := props.mod_scheme,
                        mod_payload_bps := props.mod_bps }
    let fg := flexframegen_compute_payload_len fg
    let fg := flexframegen_compute_frame_len fg
    .ok (flexframegen_configure_payload_buffers fg)

/-- How a caller retains the object across a failed `setprops`: on error the
instance keeps its previous state (the C process would have terminated
before any mutation). -/
def flexframegen_setprops_run (fg : flexframegen_s)
    (props : flexframegenprops_s) : flexframegen_s :=
  match flexframegen_setprops fg props with
  | .ok r => r.1
  | .error _ => fg

/-- Mirror of `flexframegen_getframelen`. -/
def flexframegen_getframelen (fg : flexframegen_s) : Nat :=
  fg.frame_len

/-- Mirror of `flexframegen_create`: generates the 64-chip p/n sequence from
the order-6 m-sequence, creates the BPSK header modem, allocates the three
payload buffers with capacity 1, then applies the given (or default)
properties via `flexframegen_setprops` followed by
`flexframegen_configure_payload_buffers`. -/
def flexframegen_create (c : Collab) (props? : Option flexframegenprops_s) :
    Except ConfigurationError flexframegen_s := do
  let fg0 : flexframegen_s :=
    { pn_sequence := (List.range 64).map
        (fun i => if c.msequence_bits.getD i false then (1 : Complex) else -1)
      mod_header_scheme := MOD_BPSK
      mod_header_bps := 1
      header := List.replicate 15 0
      header_enc := List.replicate 32 0
      header_sym := List.replicate 256 0
      header_samples := List.replicate 256 0
      mod_payload_scheme := MOD_BPSK
      mod_payload_bps := 1
      payload := List.replicate 1 0
      payload_sym := List.replicate 1 0
      payload_samples := List.replicate 1 0
      payload_numalloc := 1
      payload_sym_numalloc := 1
      payload_samples_numalloc := 1
      props := flexframegenprops_default
      pnsequence_len := 64
      num_payload_symbols := 0
      frame_len := 0 }
  let r ← flexframegen_setprops fg0 (props?.getD flexframegenprops_default)
  pure (flexframegen_configure_payload_buffers r.1).1

/-- The 15-byte header record as assembled by the first part of
`flexframegen_encode_header`, before scrambling: bytes 8-9 take the payload
length (big-endian, each store truncated to a byte), byte 10 packs
`(mod_scheme << 4) & 0xf0 | mod_bps & 0x0f`, and bytes 11-14 take the 32-bit
CRC over the first 11 bytes, big-endian.  `% 2 ^ 32` models the C
`unsigned int` type of `header_key`. -/
def flexframegen_assemble_header (c : Collab) (fg : flexframegen_s) : List Nat :=
  let header := fg.header
  let header := header.set 8 ((fg.props.payload_len >>> 8) &&& 0xff)
  let header := header.set 9 (fg.props.payload_len &&& 0xff)
  let header := header.set 10
    (((fg.props.mod_scheme <<< 4) &&& 0xf0) ||| (fg.props.mod_bps &&& 0x0f))
  let header_key := c.crc32_generate_key header 11 % 2 ^ 32
  let header := header.set 11 ((header_key >>> 24) &&& 0xff)
  let header := header.set 12 ((header_key >>> 16) &&& 0xff)
  let header := header.set 13 ((header_key >>> 8) &&& 0xff)
  let header := header.set 14 (header_key &&& 0xff)
  header

/-- Mirror of `flexframegen_encode_header`: assemble the 15-byte record,
scramble it in place, run the FEC encoder into the 32-byte `header_enc`
buffer, overwrite bytes 30-31 with the fixed filler `0xa7 0x9e` (the
Hamming(7,4) build path, `HAVE_FEC_H` unset), then interleave the 32-byte
block in place. -/
def flexframegen_encode_header (c : Collab) (fg : flexframegen_s) : flexframegen_s :=
  let header := flexframegen_assemble_header c fg
  let header := c.scramble_data header 15
  let header_enc := overwriteFirst (c.fec_encode 15 header) fg.header_enc
  let header_enc := header_enc.set 30 0xa7
  let header_enc := header_enc.set 31 0x9e
  let header_enc := c.interleaver_encode header_enc
  { fg with header := header, header_enc := header_enc }

/-- The eight bits of one encoded header byte, written exactly as the eight
assignments of the unpacking loop in `flexframegen_modulate_header`
(most-significant bit first). -/
def header_byte_bits (b : Nat) : List Nat :=
  [(b >>> 7) &&& 0x01, (b >>> 6) &&& 0x01, (b >>> 5) &&& 0x01,
   (b >>> 4) &&& 0x01, (b >>> 3) &&& 0x01, (b >>> 2) &&& 0x01,
   (b >>> 1) &&& 0x01, b &&& 0x01]

/-- Mirror of `flexframegen_modulate_header`: unpack each of the 32 encoded
header bytes into 8 bits (most-significant first) into `header_sym`, then
modulate the 256 bits one at a time with the header modem. -/
def flexframegen_modulate_header (c : Collab) (fg : flexframegen_s) : flexframegen_s :=
  let header_sym :=
    (List.range 32).flatMap (fun i => header_byte_bits (fg.header_enc.getD i 0))
  let header_samples :=
    (List.range 256).map (fun i =>
      c.modem_modulate fg.mod_header_scheme fg.mod_header_bps (header_sym.getD i 0))
  { fg with header_sym := header_sym, header_samples := header_samples }

/-- The `memset(payload_sym, 0x00, payload_len)` step at the top of
`flexframegen_modulate_payload`: zeroes the first `payload_len` entries of
the payload symbol buffer, leaving the rest untouched. -/
def flexframegen_clear_payload_sym (fg : flexframegen_s) : List Nat :=
  List.replicate fg.props.payload_len 0 ++ fg.payload_sym.drop fg.props.payload_len

/-- Mirror of `flexframegen_modulate_payload`: memset, `repack_bytes` of the
payload bytes into `mod_bps`-bit symbols (writing a prefix of the symbol
buffer), then modulate `num_payload_symbols` symbols with the payload
modem. -/
def flexframegen_modulate_payload (c : Collab) (fg : flexframegen_s) : flexframegen_s :=
  let payload_sym := flexframegen_clear_payload_sym fg
  let written := c.repack_bytes fg.payload 8 fg.props.payload_len
    fg.mod_payload_bps fg.num_payload_symbols
  let payload_sym := overwriteFirst written payload_sym
  let payload_samples :=
    (List.range fg.num_payload_symbols).map (fun i =>
      c.modem_modulate fg.mod_payload_scheme fg.mod_payload_bps (payload_sym.getD i 0))
  { fg with payload_sym := payload_sym, payload_samples := payload_samples }

/-- Ramp-up segment of `flexframegen_execute`.  Inside this loop the running
output index `n` equals the loop index `i`, so the `(n%2)` sign is
`(i%2)`. -/
noncomputable def rampUpSeg (props : flexframegenprops_s) : List Complex :=
  (List.range props.rampup_len).map (fun (i : Nat) =>
    Complex.ofReal ((if i % 2 = 1 then (1 : Real) else -1) *
      (0.5 * (1 - Real.cos (Real.pi * (i : Real) / (props.rampup_len : Real))))))

/-- Phasing segment of `flexframegen_execute`.  Inside this loop the running
output index is `rampup_len + i`, which the `(n%2)` sign test reads. -/
noncomputable def phasingSeg (props : flexframegenprops_s) : List Complex :=
  (List.range props.phasing_len).map (fun (i : Nat) =>
    Complex.ofReal (if (props.rampup_len + i) % 2 = 1 then (1 : Real) else -1))

/-- P/N segment of `flexframegen_execute`: the loop copies exactly 64
entries of `pn_sequence`. -/
def pnSeg (fg : flexframegen_s) : List Complex :=
  (List.range 64).map (fun i => fg.pn_sequence.getD i 0)

/-- Ramp-down segment of `flexframegen_execute`.  Note that the source's
cosine argument divides by `rampup_len`, not `rampdn_len`; the sign test is
on the segment-local index `i`. -/
noncomputable def rampDnSeg (props : flexframegenprops_s) : List Complex :=
  (List.range props.rampdn_len).map (fun (i : Nat) =>
    Complex.ofReal ((if i % 2 = 1 then (1 : Real) else -1) *
      (0.5 * (1 + Real.cos (Real.pi * (i : Real) / (props.rampup_len : Real))))))

/-- The header stage of `flexframegen_execute`: `memmove` the first 8 caller
header bytes into the 15-byte working buffer, then encode and modulate the
header. -/
def headerStage (c : Collab) (fg : flexframegen_s) (hdr : List Nat) : flexframegen_s :=
  flexframegen_modulate_header c
    (flexframegen_encode_header c
      { fg with header := overwriteFirst (hdr.take 8) fg.header })

/-- The payload stage of `flexframegen_execute`: `memmove` `payload_len`
caller payload bytes into the working buffer, then modulate the payload. -/
def payloadStage (c : Collab) (fg : flexframegen_s) (pay : List Nat) : flexframegen_s :=
  flexframegen_modulate_payload c
    { fg with payload := overwriteFirst (pay.take fg.props.payload_len) fg.payload }

/-- Mirror of `flexframegen_execute`: returns the updated object and the
output sample buffer, which the source fills segment by segment — ramp-up,
phasing, p/n sequence, the 256 header samples, `num_payload_symbols` payload
samples, ramp-down. -/
noncomputable def flexframegen_execute (c : Collab) (fg : flexframegen_s)
    (hdr pay : List Nat) : flexframegen_s × List Complex :=
  let fg1 := headerStage c fg hdr
  let fg2 := payloadStage c fg1 pay
  (fg2,
    rampUpSeg fg.props ++ phasingSeg fg.props ++ pnSeg fg
      ++ fg1.header_samples ++ fg2.payload_samples ++ rampDnSeg fg.props)

/-- The header-encoding pipeline in the spec's own words (§4.3, §6): the
15-byte record is caller content, payload length big-endian, the packed
`(scheme<<4)|depth` byte and the big-endian 32-bit checksum over the first
11 bytes; the record is then scrambled, FEC-encoded, padded with the fixed
filler to 32 bytes and finally interleaved.  Used only to compare against
the source-derived `flexframegen_encode_header`. -/
def headerEncodeSpec (c : Collab) (props : flexframegenprops_s)
    (content : List Nat) : List Nat :=
  let raw11 := content.take 8 ++
    [props.payload_len / 2 ^ 8, props.payload_len % 2 ^ 8,
     (props.mod_scheme <<< 4) ||| props.mod_bps]
  let key := c.crc32_generate_key raw11 11 % 2 ^ 32
  let raw := raw11 ++
    [key / 2 ^ 24 % 2 ^ 8, key / 2 ^ 16 % 2 ^ 8, key / 2 ^ 8 % 2 ^ 8, key % 2 ^ 8]
  c.interleaver_encode (c.fec_encode 15 (c.scramble_data raw 15) ++ [0xa7, 0x9e])

/-- A concrete instantiation of the collaborator record, used by the witness
theorems: an additive checksum over the prefix, identity scrambler and
interleaver, a doubling FEC encoder (15 bytes in, 30 bytes out), an all-ones
m-sequence, a constant modem and an all-zero repacker. -/
def collab0 : Collab :=
  { crc32_generate_key := fun l n => (l.take n).foldl (fun a b => a + b) 0
    scramble_data := fun l _ => l
    fec_encode := fun _ l => l ++ l
    interleaver_encode := fun l => l
    msequence_bits := List.replicate 64 true
    modem_modulate := fun _ _ _ => 0
    repack_bytes := fun _ _ _ _ n => List.replicate n 0 }

/-- A concrete generator state in the default configuration, as produced by
`flexframegen_create` with the default properties (geometry 368, empty
payload). -/
def fgA : flexframegen_s :=
  { pn_sequence := List.replicate 64 1
    mod_header_scheme := MOD_BPSK
    mod_header_bps := 1
    header := List.replicate 15 0
    header_enc := List.replicate 32 0
    header_sym := List.replicate 256 0
    header_samples := List.replicate 256 0
    mod_payload_scheme := MOD_BPSK
    mod_payload_bps := 1
    payload := []
    payload_sym := []
    payload_samples := []
    payload_numalloc := 0
    payload_sym_numalloc := 0
    payload_samples_numalloc := 0
    props := flexframegenprops_default
    pnsequence_len := 64
    num_payload_symbols := 0
    frame_len := 368 }

/-- A concrete state configured with ramp-up 4, phasing 0, empty payload and
ramp-down 2, so that its ramp-down segment starts at output index 324. -/
def fg6 : flexframegen_s :=
  { fgA with
      props := { rampup_len := 4, phasing_len := 0, payload_len := 0,
                 mod_scheme := MOD_BPSK, mod_bps := 1, rampdn_len := 2 }
      frame_len := 326 }

/-- A concrete state configured with one payload byte at depth 1 (so eight
payload symbols), whose symbol buffer still holds stale nonzero bytes from
an earlier frame. -/
def fg7 : flexframegen_s :=
  { fgA with
      props := { rampup_len := 16, phasing_len := 16, payload_len := 1,
                 mod_scheme := MOD_BPSK, mod_bps := 1, rampdn_len := 16 }
      payload := List.replicate 1 0xff
      payload_sym := List.replicate 8 1
      payload_samples := List.replicate 8 0
      payload_numalloc := 1
      payload_sym_numalloc := 8
      payload_samples_numalloc := 8
      num_payload_symbols := 8
      frame_len := 376 }

/-- The successful result of `flexframegen_setprops`, with the state itself
as a default on error; used to name concrete results in witnesses. -/
def setpropsOk (fg : flexframegen_s) (p : flexframegenprops_s) :
    flexframegen_s × Nat :=
  match flexframegen_setprops fg p with
  | .ok r => r
  | .error _ => (fg, 0)

/-- The concrete state obtained by reapplying the default properties to
`fgA`; used by the witness theorems. -/
def fgB : flexframegen_s := (setpropsOk fgA flexframegenprops_default).1

/-- A concrete state whose configuration is out of range in every
header-packed field: payload 70000 bytes, scheme 37, depth 20. -/
def fgBig : flexframegen_s :=
  { fgA with props := { rampup_len := 16, phasing_len := 16,
                        payload_len := 70000, mod_scheme := 37,
                        mod_bps := 20, rampdn_len := 16 } }

/-! Arithmetic and list helper lemmas. -/

lemma and_255 (x : Nat) : x &&& 0xff = x % 256 := by
  have h := Nat.and_pow_two_sub_one_eq_mod x 8
  norm_num at h
  exact h

lemma and_15 (x : Nat) : x &&& 0x0f = x % 16 := by
  have h := Nat.and_pow_two_sub_one_eq_mod x 4
  norm_num at h
  exact h

lemma shiftRight_and_255 (x k : Nat) : (x >>> k) &&& 0xff = x / 2 ^ k % 256 := by
  rw [and_255, Nat.shiftRight_eq_div_pow]

/-- Value of the packed scheme/depth byte: the source's shift-mask-or
expression equals `(scheme mod 16) * 16 + depth mod 16`. -/
lemma byte10_eq (s d : Nat) :
    ((s <<< 4) &&& 0xf0) ||| (d &&& 0x0f) = s % 16 * 16 + d % 16 := by
  have hd : d &&& 0x0f = d % 16 := and_15 d
  have hmask : (s <<< 4) &&& 0xf0 = s % 16 * 16 := by
    have h0 : (0xf0 : Nat) = 0xff &&& 0xf0 := by decide
    calc (s <<< 4) &&& 0xf0 = (s <<< 4) &&& (0xff &&& 0xf0) := by rw [← h0]
      _ = ((s <<< 4) &&& 0xff) &&& 0xf0 := by rw [Nat.and_assoc]
      _ = ((s <<< 4) % 256) &&& 0xf0 := by rw [and_255]
      _ = (s % 16 * 16) &&& 0xf0 := by
            rw [Nat.shiftLeft_eq, show (2 : Nat) ^ 4 = 16 from by norm_num,
              show (256 : Nat) = 16 * 16 from rfl, Nat.mul_mod_mul_right]
      _ = s % 16 * 16 := by
            have hr : s % 16 < 16 := Nat.mod_lt _ (by norm_num)
            revert hr
            generalize s % 16 = r
            intro hr
            interval_cases r <;> decide
  rw [hmask, hd]
  have hlt : d % 16 < 2 ^ 4 := by
    have := Nat.mod_lt d (y := 16) (by norm_num)
    omega
  calc s % 16 * 16 ||| d % 16 = 2 ^ 4 * (s % 16) ||| d % 16 := by ring_nf
    _ = 2 ^ 4 * (s % 16) + d % 16 := (Nat.mul_add_lt_is_or hlt _).symm
    _ = s % 16 * 16 + d % 16 := by ring_nf

/-- Ceiling division: the source's quotient-plus-remainder-flag form equals
the closed form `(a + b - 1) / b` (which is the ceiling of `a / b` for
positive `b`). -/
lemma ceil_div_eq (a b : Nat) (hb : 0 < b) :
    a / b + (if a % b = 0 then 0 else 1) = (a + b - 1) / b := by
  by_cases h : a % b = 0
  · have hd : b ∣ a := Nat.dvd_of_mod_eq_zero h
    have h2 : a + b - 1 = b * (a / b) + (b - 1) := by
      rw [Nat.mul_div_cancel' hd]; omega
    have h3 : (a + b - 1) / b = a / b + (b - 1) / b := by
      rw [h2, Nat.mul_add_div hb]
    have h4 : (b - 1) / b = 0 := Nat.div_eq_of_lt (by omega)
    rw [h3, h4]
    simp [h]
  · have hr : 0 < a % b := Nat.pos_of_ne_zero h
    have hrb : a % b < b := Nat.mod_lt _ hb
    have hdm := Nat.div_add_mod a b
    have hmul : b * (a / b + 1) = b * (a / b) + b := by ring
    have h2 : a + b - 1 = b * (a / b + 1) + (a % b - 1) := by omega
    have h3 : (a + b - 1) / b = (a / b + 1) + (a % b - 1) / b := by
      rw [h2, Nat.mul_add_div hb]
    have h4 : (a % b - 1) / b = 0 := Nat.div_eq_of_lt (by omega)
    rw [h3, h4]
    simp [h]

/-- Any list of length 15 is an explicit 15-element list. -/
lemma eq_explicit_of_len15 (l : List Nat) (h : l.length = 15) :
    ∃ a0 a1 a2 a3 a4 a5 a6 a7 a8 a9 a10 a11 a12 a13 a14,
      l = [a0, a1, a2, a3, a4, a5, a6, a7, a8, a9, a10, a11, a12, a13, a14] := by
  obtain ⟨a0, t, rfl⟩ := List.exists_of_length_succ l (show _ = 14 + 1 by omega)
  obtain ⟨a1, t, rfl⟩ := List.exists_of_length_succ t (show _ = 13 + 1 by simp at h; omega)
  obtain ⟨a2, t, rfl⟩ := List.exists_of_length_succ t (show _ = 12 + 1 by simp at h; omega)
  obtain ⟨a3, t, rfl⟩ := List.exists_of_length_succ t (show _ = 11 + 1 by simp at h; omega)
  obtain ⟨a4, t, rfl⟩ := List.exists_of_length_succ t (show _ = 10 + 1 by simp at h; omega)
  obtain ⟨a5, t, rfl⟩ := List.exists_of_length_succ t (show _ = 9 + 1 by simp at h; omega)
  obtain ⟨a6, t, rfl⟩ := List.exists_of_length_succ t (show _ = 8 + 1 by simp at h; omega)
  obtain ⟨a7, t, rfl⟩ := List.exists_of_length_succ t (show _ = 7 + 1 by simp at h; omega)
  obtain ⟨a8, t, rfl⟩ := List.exists_of_length_succ t (show _ = 6 + 1 by simp at h; omega)
  obtain ⟨a9, t, rfl⟩ := List.exists_of_length_succ t (show _ = 5 + 1 by simp at h; omega)
  obtain ⟨a10, t, rfl⟩ := List.exists_of_length_succ t (show _ = 4 + 1 by simp at h; omega)
  obtain ⟨a11, t, rfl⟩ := List.exists_of_length_succ t (show _ = 3 + 1 by simp at h; omega)
  obtain ⟨a12, t, rfl⟩ := List.exists_of_length_succ t (show _ = 2 + 1 by simp at h; omega)
  obtain ⟨a13, t, rfl⟩ := List.exists_of_length_succ t (show _ = 1 + 1 by simp at h; omega)
  obtain ⟨a14, t, rfl⟩ := List.exists_of_length_succ t (show _ = 0 + 1 by simp at h; omega)
  obtain rfl : t = [] := by
    have h0 : t.length = 0 := by simp only [List.length_cons] at h; omega
    exact List.eq_nil_of_length_eq_zero h0
  exact ⟨a0, a1, a2, a3, a4, a5, a6, a7, a8, a9, a10, a11, a12, a13, a14, rfl⟩

/-! Projection lemmas for the geometry-updating operations, stated over a
variable state so that rewriting never duplicates large structure literals. -/

@[simp] lemma compute_payload_len_props (fg : flexframegen_s) :
    (flexframegen_compute_payload_len fg).props = fg.props := rfl

@[simp] lemma compute_payload_len_pnsequence_len (fg : flexframegen_s) :
    (flexframegen_compute_payload_len fg).pnsequence_len = fg.pnsequence_len := rfl

@[simp] lemma compute_payload_len_pn_sequence (fg : flexframegen_s) :
    (flexframegen_compute_payload_len fg).pn_sequence = fg.pn_sequence := rfl

@[simp] lemma compute_payload_len_mod_header_scheme (fg : flexframegen_s) :
    (flexframegen_compute_payload_len fg).mod_header_scheme = fg.mod_header_scheme := rfl

@[simp] lemma compute_payload_len_mod_header_bps (fg : flexframegen_s) :
    (flexframegen_compute_payload_len fg).mod_header_bps = fg.mod_header_bps := rfl

@[simp] lemma compute_payload_len_mod_payload_scheme (fg : flexframegen_s) :
    (flexframegen_compute_payload_len fg).mod_payload_scheme = fg.mod_payload_scheme := rfl

@[simp] lemma compute_payload_len_mod_payload_bps (fg : flexframegen_s) :
    (flexframegen_compute_payload_len fg).mod_payload_bps = fg.mod_payload_bps := rfl

@[simp] lemma compute_payload_len_payload_numalloc (fg : flexframegen_s) :
    (flexframegen_compute_payload_len fg).payload_numalloc = fg.payload_numalloc := rfl

@[simp] lemma compute_payload_len_payload_sym_numalloc (fg : flexframegen_s) :
    (flexframegen_compute_payload_len fg).payload_sym_numalloc = fg.payload_sym_numalloc := rfl

@[simp] lemma compute_payload_len_payload_samples_numalloc (fg : flexframegen_s) :
    (flexframegen_compute_payload_len fg).payload_samples_numalloc = fg.payload_samples_numalloc := rfl

@[simp] lemma compute_payload_len_num (fg : flexframegen_s) :
    (flexframegen_compute_payload_len fg).num_payload_symbols
      = payload_symbols fg.props := rfl

@[simp] lemma compute_payload_len_frame (fg : flexframegen_s) :
    (flexframegen_compute_payload_len fg).frame_len = fg.frame_len := rfl

@[simp] lemma compute_frame_len_props (fg : flexframegen_s) :
    (flexframegen_compute_frame_len fg).props = fg.props := rfl

@[simp] lemma compute_frame_len_pnsequence_len (fg : flexframegen_s) :
    (flexframegen_compute_frame_len fg).pnsequence_len = fg.pnsequence_len := rfl

@[simp] lemma compute_frame_len_pn_sequence (fg : flexframegen_s) :
    (flexframegen_compute_frame_len fg).pn_sequence = fg.pn_sequence := rfl

@[simp] lemma compute_frame_len_mod_header_scheme (fg : flexframegen_s) :
    (flexframegen_compute_frame_len fg).mod_header_scheme = fg.mod_header_scheme := rfl

@[simp] lemma compute_frame_len_mod_header_bps (fg : flexframegen_s) :
    (flexframegen_compute_frame_len fg).mod_header_bps = fg.mod_header_bps := rfl

@[simp] lemma compute_frame_len_mod_payload_scheme (fg : flexframegen_s) :
    (flexframegen_compute_frame_len fg).mod_payload_scheme = fg.mod_payload_scheme := rfl

@[simp] lemma compute_frame_len_mod_payload_bps (fg : flexframegen_s) :
    (flexframegen_compute_frame_len fg).mod_payload_bps = fg.mod_payload_bps := rfl

@[simp] lemma compute_frame_len_payload_numalloc (fg : flexframegen_s) :
    (flexframegen_compute_frame_len fg).payload_numalloc = fg.payload_numalloc := rfl

@[simp] lemma compute_frame_len_payload_sym_numalloc (fg : flexframegen_s) :
    (flexframegen_compute_frame_len fg).payload_sym_numalloc = fg.payload_sym_numalloc := rfl

@[simp] lemma compute_frame_len_payload_samples_numalloc (fg : flexframegen_s) :
    (flexframegen_compute_frame_len fg).payload_samples_numalloc = fg.payload_samples_numalloc := rfl

@[simp] lemma compute_frame_len_num (fg : flexframegen_s) :
    (flexframegen_compute_frame_len fg).num_payload_symbols
      = payload_symbols fg.props := rfl

@[simp] lemma compute_frame_len_frame (fg : flexframegen_s) :
    (flexframegen_compute_frame_len fg).frame_len
      = frame_len_formula fg.pnsequence_len fg.props := rfl

@[simp] lemma configure_props (fg : flexframegen_s) :
    (flexframegen_configure_payload_buffers fg).1.props = fg.props := rfl

@[simp] lemma configure_pnsequence_len (fg : flexframegen_s) :
    (flexframegen_configure_payload_buffers fg).1.pnsequence_len = fg.pnsequence_len := rfl

@[simp] lemma configure_pn_sequence (fg : flexframegen_s) :
    (flexframegen_configure_payload_buffers fg).1.pn_sequence = fg.pn_sequence := rfl

@[simp] lemma configure_mod_header_scheme (fg : flexframegen_s) :
    (flexframegen_configure_payload_buffers fg).1.mod_header_scheme = fg.mod_header_scheme := rfl

@[simp] lemma configure_mod_header_bps (fg : flexframegen_s) :
    (flexframegen_configure_payload_buffers fg).1.mod_header_bps = fg.mod_header_bps := rfl

@[simp] lemma configure_mod_payload_scheme (fg : flexframegen_s) :
    (flexframegen_configure_payload_buffers fg).1.mod_payload_scheme = fg.mod_payload_scheme := rfl

@[simp] lemma configure_mod_payload_bps (fg : flexframegen_s) :
    (flexframegen_configure_payload_buffers fg).1.mod_payload_bps = fg.mod_payload_bps := rfl

@[simp] lemma configure_num (fg : flexframegen_s) :
    (flexframegen_configure_payload_buffers fg).1.num_payload_symbols
      = payload_symbols fg.props := rfl

@[simp] lemma configure_frame (fg : flexframegen_s) :
    (flexframegen_configure_payload_buffers fg).1.frame_len
      = frame_len_formula fg.pnsequence_len fg.props := rfl

/-- Recorded allocated size of the payload byte buffer after
`flexframegen_configure_payload_buffers`. -/
@[simp] lemma configure_payload_numalloc (fg : flexframegen_s) :
    (flexframegen_configure_payload_buffers fg).1.payload_numalloc
      = fg.props.payload_len := by
  dsimp only [flexframegen_configure_payload_buffers,
    flexframegen_compute_frame_len, flexframegen_compute_payload_len]
  split_ifs with h
  · rfl
  · dsimp only
    omega

@[simp] lemma configure_payload_sym_numalloc (fg : flexframegen_s) :
    (flexframegen_configure_payload_buffers fg).1.payload_sym_numalloc
      = payload_symbols fg.props := by
  dsimp only [flexframegen_configure_payload_buffers,
    flexframegen_compute_frame_len, flexframegen_compute_payload_len]
  split_ifs with h
  · rfl
  · dsimp only
    omega

@[simp] lemma configure_payload_samples_numalloc (fg : flexframegen_s) :
    (flexframegen_configure_payload_buffers fg).1.payload_samples_numalloc
      = payload_symbols fg.props := by
  dsimp only [flexframegen_configure_payload_buffers,
    flexframegen_compute_frame_len, flexframegen_compute_payload_len]
  split_ifs with h
  · rfl
  · dsimp only
    omega

set_option maxHeartbeats 1000000 in
/-- Postconditions of a successful `flexframegen_setprops` call: the new
properties are installed, the geometry fields hold the recomputed values,
the three recorded buffer sizes equal the geometry-required sizes, the
payload modem matches the new scheme/depth, and the construction-time fields
are untouched. -/
lemma setprops_ok_spec (fg0 : flexframegen_s) (props : flexframegenprops_s)
    (fg : flexframegen_s) (k : Nat)
    (hset : flexframegen_setprops fg0 props = .ok (fg, k)) :
    fg.props = props
    ∧ fg.num_payload_symbols = payload_symbols props
    ∧ fg.frame_len = frame_len_formula fg0.pnsequence_len props
    ∧ fg.pnsequence_len = fg0.pnsequence_len
    ∧ fg.payload_numalloc = props.payload_len
    ∧ fg.payload_sym_numalloc = payload_symbols props
    ∧ fg.payload_samples_numalloc = payload_symbols props
    ∧ fg.mod_header_scheme = fg0.mod_header_scheme
    ∧ fg.mod_header_bps = fg0.mod_header_bps
    ∧ fg.mod_payload_scheme = props.mod_scheme
    ∧ fg.mod_payload_bps = props.mod_bps
    ∧ fg.pn_sequence = fg0.pn_sequence := by
  by_cases h : props.mod_bps = 0
  · simp [flexframegen_setprops, h] at hset
  · simp only [flexframegen_setprops, h, if_false] at hset
    obtain ⟨h1, _⟩ := Prod.ext_iff.mp ((Except.ok.injEq _ _).mp hset)
    dsimp only at h1
    subst h1
    refine ⟨?_, ?_, ?_, ?_, ?_, ?_, ?_, ?_, ?_, ?_, ?_, ?_⟩ <;>
      simp only [configure_props, configure_pnsequence_len, configure_pn_sequence,
        configure_mod_header_scheme, configure_mod_header_bps,
        configure_mod_payload_scheme, configure_mod_payload_bps,
        configure_num, configure_frame, configure_payload_numalloc,
        configure_payload_sym_numalloc, configure_payload_samples_numalloc,
        compute_frame_len_props, compute_frame_len_pnsequence_len,
        compute_frame_len_pn_sequence, compute_frame_len_mod_header_scheme,
        compute_frame_len_mod_header_bps, compute_frame_len_mod_payload_scheme,
        compute_frame_len_mod_payload_bps, compute_frame_len_payload_numalloc,
        compute_frame_len_payload_sym_numalloc,
        compute_frame_len_payload_samples_numalloc,
        compute_payload_len_props, compute_payload_len_pnsequence_len,
        compute_payload_len_pn_sequence, compute_payload_len_mod_header_scheme,
        compute_payload_len_mod_header_bps, compute_payload_len_mod_payload_scheme,
        compute_payload_len_mod_payload_bps, compute_payload_len_payload_numalloc,
        compute_payload_len_payload_sym_numalloc,
        compute_payload_len_payload_samples_numalloc]

/-- C1: for every valid configuration (modulation depth > 0), the frame
length reported after a successful configuration update equals
`rampup_len + phasing_len + 64 + 256 + ceil(8*payload_len/mod_bps)
+ rampdn_len` (the ceiling written in its closed form `(8L + b - 1) / b`);
the default configuration yields 368 and `payload_len = 10`, depth 2 yields
40 payload symbols. -/
theorem C1_frame_length (fg0 fg : flexframegen_s) (props : flexframegenprops_s)
    (k : Nat) (hbps : 0 < props.mod_bps) (hpn : fg0.pnsequence_len = 64)
    (hset : flexframegen_setprops fg0 props = .ok (fg, k)) :
    flexframegen_getframelen fg
      = props.rampup_len + props.phasing_len + 64 + 256
        + (8 * props.payload_len + props.mod_bps - 1) / props.mod_bps
        + props.rampdn_len
    ∧ frame_len_formula 64 flexframegenprops_default = 368
    ∧ payload_symbols { flexframegenprops_default with
        payload_len := 10, mod_bps := 2 } = 40 := by
  refine ⟨?_, by decide, by decide⟩
  obtain ⟨-, -, hfl, -⟩ := setprops_ok_spec fg0 props fg k hset
  rw [flexframegen_getframelen, hfl, hpn, frame_len_formula]
  have := ceil_div_eq (8 * props.payload_len) props.mod_bps hbps
  simp only [payload_symbols] at *
  omega

/-- Witness for C1 at the default configuration applied to a concrete
state. -/
theorem C1_frame_length_witness :
    0 < flexframegenprops_default.mod_bps
    ∧ fgA.pnsequence_len = 64
    ∧ flexframegen_setprops fgA flexframegenprops_default
        = .ok (setpropsOk fgA flexframegenprops_default)
    ∧ (flexframegen_getframelen (setpropsOk fgA flexframegenprops_default).1
        = flexframegenprops_default.rampup_len
          + flexframegenprops_default.phasing_len + 64 + 256
          + (8 * flexframegenprops_default.payload_len
              + flexframegenprops_default.mod_bps - 1)
            / flexframegenprops_default.mod_bps
          + flexframegenprops_default.rampdn_len
       ∧ frame_len_formula 64 flexframegenprops_default = 368
       ∧ payload_symbols { flexframegenprops_default with
            payload_len := 10, mod_bps := 2 } = 40) :=
  ⟨by decide, rfl, rfl,
    C1_frame_length fgA (setpropsOk fgA flexframegenprops_default).1
      flexframegenprops_default (setpropsOk fgA flexframegenprops_default).2
      (by decide) rfl rfl⟩

/-- C5: passing modulation depth 0 to `flexframegen_setprops` fails with a
ConfigurationError before any mutation of live state: the retained object is
exactly the previous one, and a subsequent `flexframegen_getframelen` call
returns the pre-call value. -/
theorem C5_depth_zero_rejected (fg : flexframegen_s)
    (props : flexframegenprops_s) (h : props.mod_bps = 0) :
    flexframegen_setprops fg props = .error ConfigurationError.modDepthZero
    ∧ flexframegen_setprops_run fg props = fg
    ∧ flexframegen_getframelen (flexframegen_setprops_run fg props)
        = flexframegen_getframelen fg := by
  have h1 : flexframegen_setprops fg props
      = .error ConfigurationError.modDepthZero := by
    simp [flexframegen_setprops, h]
  refine ⟨h1, ?_, ?_⟩ <;> simp [flexframegen_setprops_run, h1]

/-- Witness for C5 at a concrete state and a depth-0 configuration. -/
theorem C5_depth_zero_witness :
    ({ flexframegenprops_default with mod_bps := 0 }
        : flexframegenprops_s).mod_bps = 0
    ∧ (flexframegen_setprops fgA { flexframegenprops_default with mod_bps := 0 }
        = .error ConfigurationError.modDepthZero
      ∧ flexframegen_setprops_run fgA
          { flexframegenprops_default with mod_bps := 0 } = fgA
      ∧ flexframegen_getframelen (flexframegen_setprops_run fgA
          { flexframegenprops_default with mod_bps := 0 })
          = flexframegen_getframelen fgA) :=
  ⟨rfl, C5_depth_zero_rejected fgA _ rfl⟩

/-- The reallocation count of `flexframegen_configure_payload_buffers` is
zero exactly when all three recorded buffer sizes already match their
geometry-required sizes. -/
lemma configure_count_zero_iff (g : flexframegen_s) :
    (flexframegen_configure_payload_buffers g).2 = 0
      ↔ (g.payload_numalloc = g.props.payload_len
         ∧ g.payload_sym_numalloc = payload_symbols g.props
         ∧ g.payload_samples_numalloc = payload_symbols g.props) := by
  dsimp only [flexframegen_configure_payload_buffers,
    flexframegen_compute_frame_len, flexframegen_compute_payload_len]
  split_ifs with h1 h2 h3 <;> simp_all

/-- The reallocation count reported by a successful `flexframegen_setprops`
is zero exactly when the previous recorded buffer sizes already match the
sizes required by the new properties. -/
lemma setprops_ok_count (fg0 : flexframegen_s) (props : flexframegenprops_s)
    (fg : flexframegen_s) (k : Nat)
    (hset : flexframegen_setprops fg0 props = .ok (fg, k)) :
    (k = 0 ↔ (fg0.payload_numalloc = props.payload_len
       ∧ fg0.payload_sym_numalloc = payload_symbols props
       ∧ fg0.payload_samples_numalloc = payload_symbols props)) := by
  by_cases h : props.mod_bps = 0
  · simp [flexframegen_setprops, h] at hset
  · simp only [flexframegen_setprops, h, if_false] at hset
    obtain ⟨-, h2⟩ := Prod.ext_iff.mp ((Except.ok.injEq _ _).mp hset)
    dsimp only at h2
    subst h2
    rw [configure_count_zero_iff]
    simp only [compute_frame_len_props, compute_frame_len_payload_numalloc,
      compute_frame_len_payload_sym_numalloc,
      compute_frame_len_payload_samples_numalloc,
      compute_payload_len_props, compute_payload_len_payload_numalloc,
      compute_payload_len_payload_sym_numalloc,
      compute_payload_len_payload_samples_numalloc]

/-- C8: after a successful reconfiguration all three recorded buffer sizes
equal the geometry-required sizes; a reallocation happens only when a
recorded size differs from the required size (count zero iff all match); and
a second `flexframegen_setprops` with the same properties performs no
reallocation. -/
theorem C8_buffer_reconfiguration (fg fg1 fg2 : flexframegen_s)
    (p : flexframegenprops_s) (k1 k2 : Nat)
    (h1 : flexframegen_setprops fg p = .ok (fg1, k1))
    (h2 : flexframegen_setprops fg1 p = .ok (fg2, k2)) :
    (fg1.payload_numalloc = p.payload_len
     ∧ fg1.payload_sym_numalloc = payload_symbols p
     ∧ fg1.payload_samples_numalloc = payload_symbols p)
    ∧ (k1 = 0 ↔ (fg.payload_numalloc = p.payload_len
        ∧ fg.payload_sym_numalloc = payload_symbols p
        ∧ fg.payload_samples_numalloc = payload_symbols p))
    ∧ k2 = 0 := by
  obtain ⟨-, -, -, -, ha, hb, hc, -⟩ := setprops_ok_spec fg p fg1 k1 h1
  exact ⟨⟨ha, hb, hc⟩, setprops_ok_count fg p fg1 k1 h1,
    (setprops_ok_count fg1 p fg2 k2 h2).mpr ⟨ha, hb, hc⟩⟩

/-- Witness for C8: a concrete state reconfigured twice with the default
properties. -/
theorem C8_buffer_reconfiguration_witness :
    flexframegen_setprops fgA flexframegenprops_default
        = .ok (setpropsOk fgA flexframegenprops_default)
    ∧ flexframegen_setprops (setpropsOk fgA flexframegenprops_default).1
          flexframegenprops_default
        = .ok (setpropsOk (setpropsOk fgA flexframegenprops_default).1
            flexframegenprops_default)
    ∧ (((setpropsOk fgA flexframegenprops_default).1.payload_numalloc
          = flexframegenprops_default.payload_len
        ∧ (setpropsOk fgA flexframegenprops_default).1.payload_sym_numalloc
          = payload_symbols flexframegenprops_default
        ∧ (setpropsOk fgA flexframegenprops_default).1.payload_samples_numalloc
          = payload_symbols flexframegenprops_default)
      ∧ ((setpropsOk fgA flexframegenprops_default).2 = 0
          ↔ (fgA.payload_numalloc = flexframegenprops_default.payload_len
            ∧ fgA.payload_sym_numalloc
              = payload_symbols flexframegenprops_default
            ∧ fgA.payload_samples_numalloc
              = payload_symbols flexframegenprops_default))
      ∧ (setpropsOk (setpropsOk fgA flexframegenprops_default).1
          flexframegenprops_default).2 = 0) :=
  ⟨rfl, rfl,
    C8_buffer_reconfiguration fgA (setpropsOk fgA flexframegenprops_default).1
      (setpropsOk (setpropsOk fgA flexframegenprops_default).1
        flexframegenprops_default).1
      flexframegenprops_default (setpropsOk fgA flexframegenprops_default).2
      (setpropsOk (setpropsOk fgA flexframegenprops_default).1
        flexframegenprops_default).2 rfl rfl⟩

/-- C2: for every valid configuration, the execute output is exactly the
concatenation of the six segments in order (ramp-up, phasing, 64-sample p/n
sequence, 256 header symbols, `num_payload_symbols` payload symbols,
ramp-down), each with its declared length, and the total number of samples
written equals the frame length, so the source's final `assert(n ==
frame_len)` holds. -/
theorem C2_execute_segments (c : Collab) (fg0 fg : flexframegen_s)
    (props : flexframegenprops_s) (k : Nat) (hdr pay : List Nat)
    (hpn : fg0.pnsequence_len = 64)
    (hset : flexframegen_setprops fg0 props = .ok (fg, k)) :
    (flexframegen_execute c fg hdr pay).2
      = rampUpSeg fg.props ++ phasingSeg fg.props ++ pnSeg fg
        ++ (headerStage c fg hdr).header_samples
        ++ (payloadStage c (headerStage c fg hdr) pay).payload_samples
        ++ rampDnSeg fg.props
    ∧ (rampUpSeg fg.props).length = fg.props.rampup_len
    ∧ (phasingSeg fg.props).length = fg.props.phasing_len
    ∧ (pnSeg fg).length = 64
    ∧ (headerStage c fg hdr).header_samples.length = 256
    ∧ (payloadStage c (headerStage c fg hdr) pay).payload_samples.length
        = fg.num_payload_symbols
    ∧ (flexframegen_execute c fg hdr pay).2.length
        = flexframegen_getframelen fg := by
  obtain ⟨hprops, hnum, hfl, -⟩ := setprops_ok_spec fg0 props fg k hset
  have e1 : (flexframegen_execute c fg hdr pay).2
      = rampUpSeg fg.props ++ phasingSeg fg.props ++ pnSeg fg
        ++ (headerStage c fg hdr).header_samples
        ++ (payloadStage c (headerStage c fg hdr) pay).payload_samples
        ++ rampDnSeg fg.props := rfl
  have l1 : (rampUpSeg fg.props).length = fg.props.rampup_len := by
    simp [rampUpSeg]
  have l2 : (phasingSeg fg.props).length = fg.props.phasing_len := by
    simp [phasingSeg]
  have l3 : (pnSeg fg).length = 64 := by simp [pnSeg]
  have l4 : (headerStage c fg hdr).header_samples.length = 256 := by
    simp [headerStage, flexframegen_modulate_header]
  have l5 : (payloadStage c (headerStage c fg hdr) pay).payload_samples.length
      = fg.num_payload_symbols := by
    simp [payloadStage, flexframegen_modulate_payload, headerStage,
      flexframegen_modulate_header, flexframegen_encode_header]
  have l6 : (rampDnSeg fg.props).length = fg.props.rampdn_len := by
    simp [rampDnSeg]
  refine ⟨e1, l1, l2, l3, l4, l5, ?_⟩
  rw [e1]
  simp only [List.length_append, l1, l2, l3, l4, l5, l6,
    flexframegen_getframelen]
  rw [hfl, hpn, frame_len_formula, hprops, ← hnum]

/-- Witness for C2 at the default configuration, with concrete collaborator
functions and an all-zero 8-byte header. -/
theorem C2_execute_segments_witness :
    fgA.pnsequence_len = 64
    ∧ flexframegen_setprops fgA flexframegenprops_default
        = .ok (fgB, (setpropsOk fgA flexframegenprops_default).2)
    ∧ ((flexframegen_execute collab0 fgB (List.replicate 8 0) []).2
        = rampUpSeg fgB.props ++ phasingSeg fgB.props ++ pnSeg fgB
          ++ (headerStage collab0 fgB (List.replicate 8 0)).header_samples
          ++ (payloadStage collab0
              (headerStage collab0 fgB (List.replicate 8 0)) []).payload_samples
          ++ rampDnSeg fgB.props
      ∧ (rampUpSeg fgB.props).length = fgB.props.rampup_len
      ∧ (phasingSeg fgB.props).length = fgB.props.phasing_len
      ∧ (pnSeg fgB).length = 64
      ∧ (headerStage collab0 fgB (List.replicate 8 0)).header_samples.length
          = 256
      ∧ (payloadStage collab0
          (headerStage collab0 fgB (List.replicate 8 0)) []).payload_samples.length
          = fgB.num_payload_symbols
      ∧ (flexframegen_execute collab0 fgB (List.replicate 8 0) []).2.length
          = flexframegen_getframelen fgB) :=
  ⟨rfl, rfl,
    C2_execute_segments collab0 fgA fgB flexframegenprops_default
      (setpropsOk fgA flexframegenprops_default).2 (List.replicate 8 0) []
      rfl rfl⟩

/-- C9: header packing silently truncates out-of-range configuration
values: bytes 8-9 of the assembled record hold `payload_len mod 2^16`
big-endian, and byte 10 packs `mod_scheme mod 16` (high nibble) with
`mod_bps mod 16` (low nibble); the assembly is total, raising no error for
any values. -/
theorem C9_header_truncation (c : Collab) (fg : flexframegen_s)
    (hlen : fg.header.length = 15) :
    (flexframegen_assemble_header c fg).getD 8 0 * 256
        + (flexframegen_assemble_header c fg).getD 9 0
      = fg.props.payload_len % 2 ^ 16
    ∧ (flexframegen_assemble_header c fg).getD 10 0
      = fg.props.mod_scheme % 16 * 16 + fg.props.mod_bps % 16 := by
  obtain ⟨b0, b1, b2, b3, b4, b5, b6, b7, b8, b9, b10, b11, b12, b13, b14,
    hhd⟩ := eq_explicit_of_len15 _ hlen
  have h8 : (flexframegen_assemble_header c fg).getD 8 0
      = (fg.props.payload_len >>> 8) &&& 0xff := by
    simp [flexframegen_assemble_header, hhd]
  have h9 : (flexframegen_assemble_header c fg).getD 9 0
      = fg.props.payload_len &&& 0xff := by
    simp [flexframegen_assemble_header, hhd]
  have h10 : (flexframegen_assemble_header c fg).getD 10 0
      = ((fg.props.mod_scheme <<< 4) &&& 0xf0)
          ||| (fg.props.mod_bps &&& 0x0f) := by
    simp [flexframegen_assemble_header, hhd]
  constructor
  · rw [h8, h9, shiftRight_and_255, and_255,
      show (2 : Nat) ^ 8 = 256 from rfl]
    omega
  · rw [h10, byte10_eq]

/-- Witness for C9 at a concrete state whose configuration is out of range
in every packed field (payload 70000 bytes, scheme 37, depth 20). -/
theorem C9_header_truncation_witness :
    (fgBig.header.length = 15)
    ∧ ((flexframegen_assemble_header collab0 fgBig).getD 8 0 * 256
        + (flexframegen_assemble_header collab0 fgBig).getD 9 0
      = fgBig.props.payload_len % 2 ^ 16
      ∧ (flexframegen_assemble_header collab0 fgBig).getD 10 0
        = fgBig.props.mod_scheme % 16 * 16
          + fgBig.props.mod_bps % 16) :=
  ⟨rfl, C9_header_truncation collab0 fgBig rfl⟩

/-- Setting positions 30 and 31 of a 30-plus-2 byte block overwrites exactly
the two filler positions. -/
lemma pad_set (E : List Nat) (hE : E.length = 30) (x y a b : Nat) :
    ((E ++ [x, y]).set 30 a).set 31 b = E ++ [a, b] := by
  have h1 : (E ++ [x, y]).set 30 a = E ++ [a, y] := by
    rw [List.set_append_right _ _ (by omega), hE]
    rfl
  have h2 : (E ++ [a, y]).set 31 b = E ++ [a, b] := by
    rw [List.set_append_right _ _ (by omega), hE]
    rfl
  rw [h1, h2]

/-- C3: header encoding assembles the 15-byte record (bytes 0-7 caller
content, bytes 8-9 payload length big-endian, byte 10 the packed
`(scheme<<4)|depth` nibble pair, bytes 11-14 a 32-bit checksum over bytes
0-10 stored big-endian), then scrambles all 15 bytes, then FEC-encodes the
scrambled block, pads the result with the fixed filler bytes to exactly 32
bytes, and finally interleaves the 32-byte block — in that order, matching
the spec-worded pipeline `headerEncodeSpec`; stated for every in-range
configuration and every collaborator family satisfying its contracts (the
checksum reads only the first `len` bytes, the scrambler preserves length,
the Hamming(7,4) encoder maps 15 bytes to 30). -/
theorem C3_header_pipeline (c : Collab) (fg : flexframegen_s)
    (hlen : fg.header.length = 15)
    (henc : fg.header_enc.length = 32)
    (hcrc : ∀ l n, c.crc32_generate_key l n
      = c.crc32_generate_key (l.take n) n)
    (hscr : ∀ l, (c.scramble_data l 15).length = l.length)
    (hfec : ∀ l, l.length = 15 → (c.fec_encode 15 l).length = 30)
    (hpl : fg.props.payload_len < 2 ^ 16)
    (hsch : fg.props.mod_scheme < 16)
    (hbps : fg.props.mod_bps < 16) :
    (flexframegen_encode_header c fg).header_enc
      = headerEncodeSpec c fg.props fg.header := by
  obtain ⟨b0, b1, b2, b3, b4, b5, b6, b7, b8, b9, b10, b11, b12, b13, b14,
    hhd⟩ := eq_explicit_of_len15 _ hlen
  have e8 : (fg.props.payload_len >>> 8) &&& 0xff
      = fg.props.payload_len / 2 ^ 8 := by
    rw [shiftRight_and_255, show (2 : Nat) ^ 8 = 256 from rfl]
    omega
  have e9 : fg.props.payload_len &&& 0xff = fg.props.payload_len % 2 ^ 8 := by
    rw [and_255]; norm_num
  have e10 : ((fg.props.mod_scheme <<< 4) &&& 0xf0)
        ||| (fg.props.mod_bps &&& 0x0f)
      = (fg.props.mod_scheme <<< 4) ||| fg.props.mod_bps := by
    rw [byte10_eq, Nat.mod_eq_of_lt hsch, Nat.mod_eq_of_lt hbps,
      Nat.shiftLeft_eq]
    have hd4 : fg.props.mod_bps < 2 ^ 4 := by omega
    have hor := Nat.mul_add_lt_is_or hd4 fg.props.mod_scheme
    calc fg.props.mod_scheme * 16 + fg.props.mod_bps
        = 2 ^ 4 * fg.props.mod_scheme + fg.props.mod_bps := by ring_nf
      _ = 2 ^ 4 * fg.props.mod_scheme ||| fg.props.mod_bps := hor
      _ = fg.props.mod_scheme * 2 ^ 4 ||| fg.props.mod_bps := by
          rw [Nat.mul_comm]
  have e0 : ∀ K : Nat, K &&& 0xff = K % 2 ^ 8 := fun K => by
    rw [and_255]; norm_num
  -- the assembled record, with the explicit header bytes
  have hasm0 : flexframegen_assemble_header c fg
      = [b0, b1, b2, b3, b4, b5, b6, b7,
         (fg.props.payload_len >>> 8) &&& 0xff,
         fg.props.payload_len &&& 0xff,
         ((fg.props.mod_scheme <<< 4) &&& 0xf0)
           ||| (fg.props.mod_bps &&& 0x0f),
         ((c.crc32_generate_key [b0, b1, b2, b3, b4, b5, b6, b7,
             (fg.props.payload_len >>> 8) &&& 0xff,
             fg.props.payload_len &&& 0xff,
             ((fg.props.mod_scheme <<< 4) &&& 0xf0)
               ||| (fg.props.mod_bps &&& 0x0f),
             b11, b12, b13, b14] 11 % 2 ^ 32) >>> 24) &&& 0xff,
         ((c.crc32_generate_key [b0, b1, b2, b3, b4, b5, b6, b7,
             (fg.props.payload_len >>> 8) &&& 0xff,
             fg.props.payload_len &&& 0xff,
             ((fg.props.mod_scheme <<< 4) &&& 0xf0)
               ||| (fg.props.mod_bps &&& 0x0f),
             b11, b12, b13, b14] 11 % 2 ^ 32) >>> 16) &&& 0xff,
         ((c.crc32_generate_key [b0, b1, b2, b3, b4, b5, b6, b7,
             (fg.props.payload_len >>> 8) &&& 0xff,
             fg.props.payload_len &&& 0xff,
             ((fg.props.mod_scheme <<< 4) &&& 0xf0)
               ||| (fg.props.mod_bps &&& 0x0f),
             b11, b12, b13, b14] 11 % 2 ^ 32) >>> 8) &&& 0xff,
         (c.crc32_generate_key [b0, b1, b2, b3, b4, b5, b6, b7,
             (fg.props.payload_len >>> 8) &&& 0xff,
             fg.props.payload_len &&& 0xff,
             ((fg.props.mod_scheme <<< 4) &&& 0xf0)
               ||| (fg.props.mod_bps &&& 0x0f),
             b11, b12, b13, b14] 11 % 2 ^ 32) &&& 0xff] := by
    simp only [flexframegen_assemble_header]
    rw [hhd]
    rfl
  -- both checksum calls read the same first 11 bytes
  have hk : c.crc32_generate_key [b0, b1, b2, b3, b4, b5, b6, b7,
        fg.props.payload_len / 2 ^ 8, fg.props.payload_len % 2 ^ 8,
        (fg.props.mod_scheme <<< 4) ||| fg.props.mod_bps,
        b11, b12, b13, b14] 11
      = c.crc32_generate_key [b0, b1, b2, b3, b4, b5, b6, b7,
        fg.props.payload_len / 2 ^ 8, fg.props.payload_len % 2 ^ 8,
        (fg.props.mod_scheme <<< 4) ||| fg.props.mod_bps] 11 := by
    conv_lhs => rw [hcrc]
    conv_rhs => rw [hcrc]
    rfl
  -- the assembled record equals the spec-worded raw record
  have hasm : flexframegen_assemble_header c fg
      = [b0, b1, b2, b3, b4, b5, b6, b7,
         fg.props.payload_len / 2 ^ 8, fg.props.payload_len % 2 ^ 8,
         (fg.props.mod_scheme <<< 4) ||| fg.props.mod_bps,
         (c.crc32_generate_key [b0, b1, b2, b3, b4, b5, b6, b7,
             fg.props.payload_len / 2 ^ 8, fg.props.payload_len % 2 ^ 8,
             (fg.props.mod_scheme <<< 4) ||| fg.props.mod_bps] 11 % 2 ^ 32)
           / 2 ^ 24 % 2 ^ 8,
         (c.crc32_generate_key [b0, b1, b2, b3, b4, b5, b6, b7,
             fg.props.payload_len / 2 ^ 8, fg.props.payload_len % 2 ^ 8,
             (fg.props.mod_scheme <<< 4) ||| fg.props.mod_bps] 11 % 2 ^ 32)
           / 2 ^ 16 % 2 ^ 8,
         (c.crc32_generate_key [b0, b1, b2, b3, b4, b5, b6, b7,
             fg.props.payload_len / 2 ^ 8, fg.props.payload_len % 2 ^ 8,
             (fg.props.mod_scheme <<< 4) ||| fg.props.mod_bps] 11 % 2 ^ 32)
           / 2 ^ 8 % 2 ^ 8,
         c.crc32_generate_key [b0, b1, b2, b3, b4, b5, b6, b7,
             fg.props.payload_len / 2 ^ 8, fg.props.payload_len % 2 ^ 8,
             (fg.props.mod_scheme <<< 4) ||| fg.props.mod_bps] 11 % 2 ^ 32
           % 2 ^ 8] := by
    rw [hasm0, e8, e9, e10, hk]
    simp only [e0, Nat.shiftRight_eq_div_pow]
  -- the scrambled-then-encoded block has length 30
  have hslen : (c.scramble_data (flexframegen_assemble_header c fg) 15).length
      = 15 := by
    rw [hscr, hasm]
    rfl
  have hflen : (c.fec_encode 15
      (c.scramble_data (flexframegen_assemble_header c fg) 15)).length
      = 30 := hfec _ hslen
  obtain ⟨x, y, hxy⟩ := List.length_eq_two.mp
    (show (fg.header_enc.drop 30).length = 2 by simp [henc])
  -- the padded 32-byte block, on the source side
  have hpad : ((overwriteFirst (c.fec_encode 15
        (c.scramble_data (flexframegen_assemble_header c fg) 15))
        fg.header_enc).set 30 0xa7).set 31 0x9e
      = c.fec_encode 15
          (c.scramble_data (flexframegen_assemble_header c fg) 15)
        ++ [0xa7, 0x9e] := by
    rw [overwriteFirst, hflen, hxy]
    exact pad_set _ hflen x y _ _
  calc (flexframegen_encode_header c fg).header_enc
      = c.interleaver_encode (((overwriteFirst (c.fec_encode 15
          (c.scramble_data (flexframegen_assemble_header c fg) 15))
          fg.header_enc).set 30 0xa7).set 31 0x9e) := rfl
    _ = c.interleaver_encode (c.fec_encode 15
          (c.scramble_data (flexframegen_assemble_header c fg) 15)
          ++ [0xa7, 0x9e]) := by rw [hpad]
    _ = headerEncodeSpec c fg.props fg.header := by
          rw [hasm]
          simp only [headerEncodeSpec]
          rw [hhd]
          rfl


/-- Witness for C3 at a concrete state and concrete collaborators. -/
theorem C3_header_pipeline_witness :
    fgB.header.length = 15
    ∧ fgB.header_enc.length = 32
    ∧ fgB.props.payload_len < 2 ^ 16
    ∧ fgB.props.mod_scheme < 16
    ∧ fgB.props.mod_bps < 16
    ∧ (flexframegen_encode_header collab0 fgB).header_enc
        = headerEncodeSpec collab0 fgB.props fgB.header :=
  ⟨rfl, rfl, by decide, by decide, by decide,
    C3_header_pipeline collab0 fgB rfl rfl
      (fun l n => by simp [collab0, List.take_take])
      (fun l => rfl)
      (fun l h => by simp [collab0, h])
      (by decide) (by decide) (by decide)⟩

/-- Flattening eight bits per index over `range n` is a map over
`range (8*n)`. -/
lemma flatMap_range_eight (n : Nat) (f : Nat → Nat) :
    (List.range n).flatMap (fun i => (List.range 8).map (fun k => f (8 * i + k)))
      = (List.range (8 * n)).map f := by
  induction n with
  | zero => simp
  | succ m ih =>
      rw [List.range_succ, List.flatMap_append, ih,
        show 8 * (m + 1) = 8 * m + 8 from by ring, List.range_add,
        List.map_append, List.flatMap_singleton, List.map_map]
      rfl

/-- The eight unpacking assignments of one byte are the MSB-first bit map. -/
lemma header_byte_bits_eq (b : Nat) :
    header_byte_bits b
      = (List.range 8).map (fun k => (b >>> (7 - k)) &&& 0x01) := rfl

/-- Fields of the header stage of `flexframegen_modulate_header` needed by
later claims are untouched. -/
lemma modulate_header_enc (c : Collab) (fg : flexframegen_s) :
    (flexframegen_modulate_header c fg).header_enc = fg.header_enc := rfl

/-- A successfully created generator has its header modem fixed at scheme
`MOD_BPSK` with one bit per symbol. -/
lemma create_ok_mod_header (c : Collab) (p? : Option flexframegenprops_s)
    (r : flexframegen_s) (h : flexframegen_create c p? = .ok r) :
    r.mod_header_scheme = MOD_BPSK ∧ r.mod_header_bps = 1 := by
  simp only [flexframegen_create, bind, Except.bind] at h
  generalize hs : flexframegen_setprops _ (p?.getD flexframegenprops_default)
      = res at h
  cases res with
  | error e => simp at h
  | ok rr =>
      simp only [pure, Except.pure, Except.ok.injEq] at h
      obtain ⟨-, -, -, -, -, -, -, hms, hmb, -⟩ :=
        setprops_ok_spec _ _ rr.1 rr.2 hs
      rw [← h]
      exact ⟨by rw [configure_mod_header_scheme, hms], by
        rw [configure_mod_header_bps, hmb]⟩

/-- C4: header modulation unpacks each of the 32 encoded header bytes into 8
bits most-significant-bit first (bit `i` is bit `7 - i mod 8` of byte
`i / 8`), yielding exactly 256 bits, each modulated independently with the
one-bit binary header modem; the result is independent of the configured
payload modulation scheme and depth, and a created generator always carries
the `MOD_BPSK`/1-bit header modem. -/
theorem C4_header_modulation (c : Collab) (fg : flexframegen_s)
    (hsch : fg.mod_header_scheme = MOD_BPSK)
    (hbps : fg.mod_header_bps = 1) :
    (flexframegen_modulate_header c fg).header_sym
      = (List.range 256).map (fun i =>
          (fg.header_enc.getD (i / 8) 0 >>> (7 - i % 8)) &&& 0x01)
    ∧ (flexframegen_modulate_header c fg).header_sym.length = 256
    ∧ (flexframegen_modulate_header c fg).header_samples
      = (List.range 256).map (fun i =>
          c.modem_modulate MOD_BPSK 1
            ((flexframegen_modulate_header c fg).header_sym.getD i 0))
    ∧ (flexframegen_modulate_header c fg).header_samples.length = 256
    ∧ (∀ s b, (flexframegen_modulate_header c
          { fg with mod_payload_scheme := s,
                    mod_payload_bps := b }).header_samples
        = (flexframegen_modulate_header c fg).header_samples)
    ∧ (∀ p? r, flexframegen_create c p? = .ok r →
        r.mod_header_scheme = MOD_BPSK ∧ r.mod_header_bps = 1) := by
  have hsym : (flexframegen_modulate_header c fg).header_sym
      = (List.range 256).map (fun i =>
          (fg.header_enc.getD (i / 8) 0 >>> (7 - i % 8)) &&& 0x01) := by
    show (List.range 32).flatMap
        (fun i => header_byte_bits (fg.header_enc.getD i 0)) = _
    rw [show (256 : Nat) = 8 * 32 from rfl, ← flatMap_range_eight]
    congr 1
    funext i
    rw [header_byte_bits_eq]
    apply List.map_congr_left
    intro k hk
    have hk8 : k < 8 := List.mem_range.mp hk
    have hdiv : (8 * i + k) / 8 = i := by omega
    have hmod : (8 * i + k) % 8 = k := by omega
    rw [hdiv, hmod]
  refine ⟨hsym, by rw [hsym]; simp, ?_, by simp [flexframegen_modulate_header], ?_, ?_⟩
  · show (List.range 256).map (fun i => c.modem_modulate fg.mod_header_scheme
        fg.mod_header_bps (((List.range 32).flatMap (fun i =>
          header_byte_bits (fg.header_enc.getD i 0))).getD i 0)) = _
    rw [hsch, hbps]
    rfl
  · intro s b
    rfl
  · intro p? r h
    exact create_ok_mod_header c p? r h

/-- Witness for C4 at a concrete state with concrete collaborators. -/
theorem C4_header_modulation_witness :
    fgB.mod_header_scheme = MOD_BPSK
    ∧ fgB.mod_header_bps = 1
    ∧ ((flexframegen_modulate_header collab0 fgB).header_sym
        = (List.range 256).map (fun i =>
            (fgB.header_enc.getD (i / 8) 0 >>> (7 - i % 8)) &&& 0x01)
      ∧ (flexframegen_modulate_header collab0 fgB).header_sym.length = 256
      ∧ (flexframegen_modulate_header collab0 fgB).header_samples
        = (List.range 256).map (fun i =>
            collab0.modem_modulate MOD_BPSK 1
              ((flexframegen_modulate_header collab0 fgB).header_sym.getD i 0))
      ∧ (flexframegen_modulate_header collab0 fgB).header_samples.length = 256
      ∧ (∀ s b, (flexframegen_modulate_header collab0
            { fgB with mod_payload_scheme := s,
                       mod_payload_bps := b }).header_samples
          = (flexframegen_modulate_header collab0 fgB).header_samples)
      ∧ (∀ p? r, flexframegen_create collab0 p? = .ok r →
          r.mod_header_scheme = MOD_BPSK ∧ r.mod_header_bps = 1)) :=
  ⟨rfl, rfl, C4_header_modulation collab0 fgB rfl rfl⟩

/-- C10: execute reads only the first 8 bytes of the caller-supplied header
buffer — two header inputs agreeing on bytes 0-7 produce identical output
samples (and identical final state) for the same configuration and
payload. -/
theorem C10_header_first_eight (c : Collab) (fg : flexframegen_s)
    (h1 h2 pay : List Nat) (hagree : h1.take 8 = h2.take 8) :
    flexframegen_execute c fg h1 pay = flexframegen_execute c fg h2 pay := by
  unfold flexframegen_execute headerStage
  rw [hagree]

/-- Witness for C10: two 9-byte headers differing only in byte 8. -/
theorem C10_header_first_eight_witness :
    ([1, 2, 3, 4, 5, 6, 7, 8, 9] : List Nat).take 8
        = ([1, 2, 3, 4, 5, 6, 7, 8, 42] : List Nat).take 8
    ∧ flexframegen_execute collab0 fgB [1, 2, 3, 4, 5, 6, 7, 8, 9] []
        = flexframegen_execute collab0 fgB [1, 2, 3, 4, 5, 6, 7, 8, 42] [] :=
  ⟨rfl, C10_header_first_eight collab0 fgB _ _ [] rfl⟩

/-- Counterexample for C7: in the state `fg7` (one payload byte at depth 1,
so eight payload symbols, symbol buffer sized accordingly and holding stale
nonzero bytes), the memset at the top of payload modulation clears only
`payload_len = 1` entries, so the buffer seen by the repacker is not
all-zero — the claim that all `num_payload_symbols` entries are cleared is
false. -/
theorem C7_counterexample :
    fg7.payload_sym.length = fg7.num_payload_symbols
    ∧ fg7.num_payload_symbols = payload_symbols fg7.props
    ∧ flexframegen_clear_payload_sym fg7
        ≠ List.replicate fg7.num_payload_symbols 0
    ∧ flexframegen_clear_payload_sym fg7 = [0, 1, 1, 1, 1, 1, 1, 1] := by
  refine ⟨rfl, by decide, by decide, by decide⟩

/-- C7 (amended): before repacking, the memset clears exactly the first
`payload_len` entries of the payload symbol buffer to zero and leaves the
remaining entries untouched; the entire buffer therefore ends up cleared
only when the buffer is no longer than `payload_len` (depth 8, or an empty
payload). -/
theorem C7_clear_amended (fg : flexframegen_s) :
    (flexframegen_clear_payload_sym fg).take fg.props.payload_len
        = List.replicate fg.props.payload_len 0
    ∧ (flexframegen_clear_payload_sym fg).drop fg.props.payload_len
        = fg.payload_sym.drop fg.props.payload_len
    ∧ (fg.payload_sym.length ≤ fg.props.payload_len →
        flexframegen_clear_payload_sym fg
          = List.replicate fg.props.payload_len 0) := by
  refine ⟨?_, ?_, ?_⟩
  · rw [flexframegen_clear_payload_sym]
    exact List.take_left' (by simp)
  · rw [flexframegen_clear_payload_sym]
    exact List.drop_left' (by simp)
  · intro hle
    rw [flexframegen_clear_payload_sym, List.drop_eq_nil_of_le hle,
      List.append_nil]

/-- Witness for C7 (amended) at a concrete state with an empty payload. -/
theorem C7_clear_amended_witness :
    fgB.payload_sym.length ≤ fgB.props.payload_len
    ∧ ((flexframegen_clear_payload_sym fgB).take fgB.props.payload_len
        = List.replicate fgB.props.payload_len 0
      ∧ (flexframegen_clear_payload_sym fgB).drop fgB.props.payload_len
        = fgB.payload_sym.drop fgB.props.payload_len
      ∧ flexframegen_clear_payload_sym fgB
        = List.replicate fgB.props.payload_len 0) :=
  ⟨by decide, (C7_clear_amended fgB).1, (C7_clear_amended fgB).2.1,
    (C7_clear_amended fgB).2.2 (by decide)⟩

/-- Indexing a mapped range with an in-bounds index. -/
lemma getD_map_range {α : Type} (d : α) (f : Nat → α) (n i : Nat)
    (h : i < n) : ((List.range n).map f).getD i d = f i := by
  rw [List.getD_eq_getElem _ _ (by simpa using h)]
  simp

/-- The ramp-down sample written by `flexframegen_execute` at segment-local
index `i`: sign from the parity of `i`, amplitude
`0.5 * (1 + cos (pi * i / rampup_len))` — the source divides by the ramp-up
length. -/
lemma execute_rampdn_sample (c : Collab) (fg : flexframegen_s)
    (hdr pay : List Nat) (i : Nat) (hi : i < fg.props.rampdn_len) :
    (flexframegen_execute c fg hdr pay).2.getD
        (fg.props.rampup_len + fg.props.phasing_len + 64 + 256
          + fg.num_payload_symbols + i) 0
      = Complex.ofReal ((if i % 2 = 1 then (1 : Real) else -1) *
          (0.5 * (1 + Real.cos (Real.pi * (i : Real)
            / (fg.props.rampup_len : Real))))) := by
  have e1 : (flexframegen_execute c fg hdr pay).2
      = ((((rampUpSeg fg.props ++ phasingSeg fg.props) ++ pnSeg fg)
          ++ (headerStage c fg hdr).header_samples)
          ++ (payloadStage c (headerStage c fg hdr) pay).payload_samples)
        ++ rampDnSeg fg.props := rfl
  have l1 : (rampUpSeg fg.props).length = fg.props.rampup_len := by
    simp [rampUpSeg]
  have l2 : (phasingSeg fg.props).length = fg.props.phasing_len := by
    simp [phasingSeg]
  have l3 : (pnSeg fg).length = 64 := by simp [pnSeg]
  have l4 : (headerStage c fg hdr).header_samples.length = 256 := by
    simp [headerStage, flexframegen_modulate_header]
  have l5 : (payloadStage c (headerStage c fg hdr) pay).payload_samples.length
      = fg.num_payload_symbols := by
    simp [payloadStage, flexframegen_modulate_payload, headerStage,
      flexframegen_modulate_header, flexframegen_encode_header]
  have hlen5 : ((((rampUpSeg fg.props ++ phasingSeg fg.props) ++ pnSeg fg)
      ++ (headerStage c fg hdr).header_samples)
      ++ (payloadStage c (headerStage c fg hdr) pay).payload_samples).length
      = fg.props.rampup_len + fg.props.phasing_len + 64 + 256
        + fg.num_payload_symbols := by
    simp only [List.length_append, l1, l2, l3, l4, l5]
  rw [e1, List.getD_append_right _ _ _ _ (by rw [hlen5]; omega), hlen5]
  have hidx : fg.props.rampup_len + fg.props.phasing_len + 64 + 256
      + fg.num_payload_symbols + i
      - (fg.props.rampup_len + fg.props.phasing_len + 64 + 256
        + fg.num_payload_symbols) = i := by omega
  rw [hidx, rampDnSeg]
  exact getD_map_range 0 _ _ i hi

/-- C6 (amended): for every configuration, ramp-down sample `i` (0-indexed
within the segment) written by execute has amplitude
`0.5 * (1 + cos (pi * i / rampUpLength))` — the cosine argument divides by
the ramp-up length, not the ramp-down length — with sign alternating by
segment-local index parity restarted at index 0. -/
theorem C6_rampdn_amended (c : Collab) (fg : flexframegen_s)
    (hdr pay : List Nat) (i : Nat) (hi : i < fg.props.rampdn_len) :
    (flexframegen_execute c fg hdr pay).2.getD
        (fg.props.rampup_len + fg.props.phasing_len + 64 + 256
          + fg.num_payload_symbols + i) 0
      = Complex.ofReal ((if i % 2 = 1 then (1 : Real) else -1) *
          (0.5 * (1 + Real.cos (Real.pi * (i : Real)
            / (fg.props.rampup_len : Real))))) :=
  execute_rampdn_sample c fg hdr pay i hi

/-- Witness for the amended C6 at a concrete state and index 0. -/
theorem C6_rampdn_amended_witness :
    (0 : Nat) < fg6.props.rampdn_len
    ∧ (flexframegen_execute collab0 fg6 [] []).2.getD
        (fg6.props.rampup_len + fg6.props.phasing_len + 64 + 256
          + fg6.num_payload_symbols + 0) 0
      = Complex.ofReal ((if 0 % 2 = 1 then (1 : Real) else -1) *
          (0.5 * (1 + Real.cos (Real.pi * ((0 : Nat) : Real)
            / (fg6.props.rampup_len : Real))))) :=
  ⟨by decide, C6_rampdn_amended collab0 fg6 [] [] 0 (by decide)⟩

/-- Counterexample for C6 as stated: in the state `fg6` (ramp-up 4,
ramp-down 2), ramp-down sample 1 — output index 325 — does not equal the
value claimed with the ramp-down length in the cosine argument, because the
source divides by the ramp-up length and `cos (pi/4)` differs from
`cos (pi/2)`. -/
theorem C6_counterexample_rampdn :
    (flexframegen_execute collab0 fg6 [] []).2.getD 325 0
      ≠ Complex.ofReal ((if 1 % 2 = 1 then (1 : Real) else -1) *
          (0.5 * (1 + Real.cos (Real.pi * ((1 : Nat) : Real)
            / (fg6.props.rampdn_len : Real))))) := by
  have h325 : (flexframegen_execute collab0 fg6 [] []).2.getD 325 0
      = Complex.ofReal ((if 1 % 2 = 1 then (1 : Real) else -1) *
          (0.5 * (1 + Real.cos (Real.pi * ((1 : Nat) : Real)
            / (fg6.props.rampup_len : Real))))) :=
    execute_rampdn_sample collab0 fg6 [] [] 1 (by decide)
  rw [h325]
  simp only [show fg6.props.rampup_len = 4 from rfl,
    show fg6.props.rampdn_len = 2 from rfl]
  intro hure
  have hre := Complex.ofReal_inj.mp hure
  push_cast at hre
  rw [mul_one] at hre
  rw [Real.cos_pi_div_four, Real.cos_pi_div_two] at hre
  norm_num at hre
